import Mathlib

/-!
Shallow embedding of `src/transformer_from_scratch/model.py`.

Tensors are embedded as shape-carrying grids whose entries live in `Option R`
(`none` models an IEEE NaN entry; parameters themselves are plain numbers).
Scores inside the attention mask step live in `SVal R`, which distinguishes a
finite score, a score filled with negative infinity by `masked_fill`, and a NaN
score.  Float arithmetic is idealised as a linear ordered field `R`, with the
exponential and square root passed in as functions (instantiated with
`Real.exp` / `Real.sqrt` in the theorems).  Shape errors (PyTorch
`RuntimeError`s) are modelled by `Option` at the tensor level: an operation
returns `none` exactly when the corresponding torch call raises.
Dropout layers run in evaluation mode (identity), matching the claims, and the
`nn.Dropout` member of `SelfAttention` is never applied in `forward`
(model.py:102 is dead state), so it does not appear in the embedding.
-/

namespace TransformerModel

section Model

variable {R : Type} [LinearOrderedField R] [DecidableEq R]

/-- Scalar addition on NaN-tracked values: NaN propagates through `+`. -/
def oAdd (x y : Option R) : Option R :=
  x.bind (fun a => y.map (fun b => a + b))

/-- Scalar multiplication on NaN-tracked values: NaN propagates through `*`. -/
def oMul (x y : Option R) : Option R :=
  x.bind (fun a => y.map (fun b => a * b))

/-- Sum of `f 0 + f 1 + ... + f (n-1)` on NaN-tracked values, as produced by a
reduction over an axis of extent `n`; any NaN term makes the sum NaN. -/
def oSum : ℕ → (ℕ → Option R) → Option R
  | 0, _ => some 0
  | n + 1, f => oAdd (oSum n f) (f n)

/-- A batched rank-3 tensor of shape `(bs, n, d)` with entry type `α`.
Indices outside the shape read junk values; every operation below only ever
uses indices inside the recorded shape. -/
structure Grid3 (α : Type) where
  bs : ℕ
  n : ℕ
  d : ℕ
  val : ℕ → ℕ → ℕ → α

/-- A floating tensor: entries are NaN-tracked scalars. -/
abbrev Tensor3 (R : Type) := Grid3 (Option R)

/-- A rank-2 mask of shape `(bs, n)` with 0/1 (integer) entries, as passed for
`src_mask` / `tgt_mask`; value `0` marks a padding position. -/
structure Mask2 where
  bs : ℕ
  n : ℕ
  val : ℕ → ℕ → ℕ

/-- Parameters of one `nn.Linear(inF, outF)`: weight of shape `(outF, inF)`
and bias of length `outF`. -/
structure LinearParams (R : Type) where
  outF : ℕ
  inF : ℕ
  weight : ℕ → ℕ → R
  bias : ℕ → R

/-- Application of `nn.Linear` to the last axis of a rank-3 tensor:
`y = x W^T + b`; raises (returns `none`) when the feature dimension of `x`
does not match the layer's input dimension. -/
def linear (p : LinearParams R) (x : Tensor3 R) : Option (Tensor3 R) :=
  if x.d = p.inF then
    some ⟨x.bs, x.n, p.outF, fun b i o =>
      oAdd (oSum x.d (fun j => oMul (x.val b i j) (some (p.weight o j))))
        (some (p.bias o))⟩
  else none

/-- Model of `Tensor.transpose(1, 2)` on a rank-3 tensor. -/
def transpose12 (x : Tensor3 R) : Tensor3 R :=
  ⟨x.bs, x.d, x.n, fun b i j => x.val b j i⟩

/-- Model of `torch.bmm`: batched matrix product `(bs,n,m) x (bs,m,p)`;
raises when batch sizes or inner dimensions disagree. -/
def bmm (x y : Tensor3 R) : Option (Tensor3 R) :=
  if x.bs = y.bs ∧ x.d = y.n then
    some ⟨x.bs, x.n, y.d, fun b i j =>
      oSum x.d (fun t => oMul (x.val b i t) (y.val b t j))⟩
  else none

/-- Elementwise division of a tensor by a scalar (the `/ np.sqrt(dim_k)`
step of model.py:113). -/
def scaleDiv (x : Tensor3 R) (c : R) : Tensor3 R :=
  ⟨x.bs, x.n, x.d, fun b i j => (x.val b i j).map (fun a => a / c)⟩

/-- A score value after the masking step of `SelfAttention.forward`:
either a finite score, a score filled to negative infinity by `masked_fill`,
or a NaN score. -/
inductive SVal (R : Type) where
  | fin : R → SVal R
  | ninf : SVal R
  | nan : SVal R

/-- View of a NaN-tracked scalar as a score value. -/
def toSVal (x : Option R) : SVal R :=
  match x with
  | none => SVal.nan
  | some a => SVal.fin a

/-- Exponential of a score value: `exp` of a finite score, `0` for negative
infinity, NaN for NaN. -/
def svexp (rexp : R → R) (s : SVal R) : Option R :=
  match s with
  | SVal.fin x => some (rexp x)
  | SVal.ninf => some 0
  | SVal.nan => none

/-- One softmax slice along an axis of extent `m`: entry `i` of
`exp(col) / sum(exp(col))`.  A zero denominator (the whole slice filled with
negative infinity) or a NaN anywhere in the slice yields NaN, as in torch. -/
def softmaxCol (rexp : R → R) (m : ℕ) (col : ℕ → SVal R) (i : ℕ) : Option R :=
  (oSum m (fun r => svexp rexp (col r))).bind
    (fun d => if d = 0 then none else (svexp rexp (col i)).map (fun e => e / d))

/-- Model of `torch.softmax(scores, dim=1)` (model.py:125): each slice that is
normalised runs along axis 1 (the query axis, of extent `s.n`), holding the
batch index and the key index `j` fixed. -/
def softmaxDim1 (rexp : R → R) (s : Grid3 (SVal R)) : Tensor3 R :=
  ⟨s.bs, s.n, s.d, fun b i j => softmaxCol rexp s.n (fun r => s.val b r j) i⟩

/-- The mask application of model.py:116-123.
`expanded_mask = mask[:, None, :].expand(bs, tgt_len, seq_len)` requires the
mask's batch dimension to be `bs` (or 1) and its length to be `seq_len`
(or 1); `subsequent_mask` has shape `(tgt_len, tgt_len)` and its
`masked_fill` onto the `(bs, tgt_len, seq_len)` scores requires
`tgt_len = seq_len` (or `tgt_len = 1`, in which case its single entry is 1
and nothing is filled).  Positions where the padding mask is 0, and positions
with key index `j` greater than query index `i` (where `subsequent_mask` is
0), are filled with negative infinity. -/
def applyMask (scores : Tensor3 R) (mask : Mask2) : Option (Grid3 (SVal R)) :=
  if (mask.bs = scores.bs ∨ mask.bs = 1) ∧ (mask.n = scores.d ∨ mask.n = 1) then
    if scores.n = scores.d ∨ scores.n = 1 then
      some ⟨scores.bs, scores.n, scores.d, fun b i j =>
        if mask.val (if mask.bs = 1 then 0 else b) (if mask.n = 1 then 0 else j) = 0 then
          SVal.ninf
        else if scores.n ≠ 1 ∧ i < j then SVal.ninf
        else toSVal (scores.val b i j)⟩
    else none
  else none

/-- Parameters of one `SelfAttention` head: the three `nn.Linear(d_model,
output_size)` projections (the constructor's `nn.Dropout` is never used by
`forward` and carries no parameters). -/
structure SelfAttentionParams (R : Type) where
  query : LinearParams R
  key : LinearParams R
  value : LinearParams R

/-- Raw scores of `SelfAttention.forward` (model.py:108-113):
`bmm(query, key.transpose(1, 2)) / np.sqrt(dim_k)` where `dim_k` is the
feature size of the projected keys. -/
def saScores (rsqrt : R → R) (p : SelfAttentionParams R) (q k : Tensor3 R) :
    Option (Tensor3 R) := do
  let query ← linear p.query q
  let key ← linear p.key k
  let scores ← bmm query (transpose12 key)
  pure (scaleDiv scores (rsqrt ((key.d : R))))

/-- Scores after the optional masking step (model.py:116-123): with no mask
every score stays finite; with a mask the padding and subsequent fills of
`applyMask` run. -/
def saMaskedScores (rsqrt : R → R) (p : SelfAttentionParams R) (q k : Tensor3 R)
    (mask : Option Mask2) : Option (Grid3 (SVal R)) := do
  let scores ← saScores rsqrt p q k
  match mask with
  | none => pure ⟨scores.bs, scores.n, scores.d, fun b i j => toSVal (scores.val b i j)⟩
  | some m => applyMask scores m

/-- Attention weights of `SelfAttention.forward`:
`torch.softmax(scores, dim=1)` (model.py:125). -/
def saWeights (rexp rsqrt : R → R) (p : SelfAttentionParams R) (q k : Tensor3 R)
    (mask : Option Mask2) : Option (Tensor3 R) := do
  let s ← saMaskedScores rsqrt p q k mask
  pure (softmaxDim1 rexp s)

/-- Full `SelfAttention.forward` (model.py:104-127):
`outputs = bmm(weights, value)`. -/
def selfAttentionForward (rexp rsqrt : R → R) (p : SelfAttentionParams R)
    (q k v : Tensor3 R) (mask : Option Mask2) : Option (Tensor3 R) := do
  let value ← linear p.value v
  let w ← saWeights rexp rsqrt p q k mask
  bmm w value

/-- Parameters of `MultiHeadedAttention`: the list of heads built at
model.py:79-84 and the output projection `nn.Linear(d_model, d_model)`. -/
structure MultiHeadedAttentionParams (R : Type) where
  attentions : List (SelfAttentionParams R)
  output : LinearParams R

/-- Concatenation of two rank-3 tensors along axis 1, requiring the other
two axes to agree (as `torch.cat(.., dim=1)` does). -/
def cat2Dim1 (x y : Tensor3 R) : Option (Tensor3 R) :=
  if x.bs = y.bs ∧ x.d = y.d then
    some ⟨x.bs, x.n + y.n, x.d, fun b i j =>
      if i < x.n then x.val b i j else y.val b (i - x.n) j⟩
  else none

/-- Model of `torch.cat(ts, dim=1)`: concatenating an empty list raises. -/
def catDim1 : List (Tensor3 R) → Option (Tensor3 R)
  | [] => none
  | t :: ts => ts.foldlM cat2Dim1 t

/-- Full `MultiHeadedAttention.forward` (model.py:87-94): run every head,
concatenate the head outputs along `dim=1`, then apply the output
projection. -/
def multiHeadedAttentionForward (rexp rsqrt : R → R)
    (p : MultiHeadedAttentionParams R) (q k v : Tensor3 R)
    (mask : Option Mask2) : Option (Tensor3 R) := do
  let outs ← p.attentions.mapM (fun h => selfAttentionForward rexp rsqrt h q k v mask)
  let x ← catDim1 outs
  linear p.output x

/-- Parameters of the `ffn` sequential block (model.py:52-58):
`Linear(d_model, d_ff)`, `ReLU`, `Dropout`, `Linear(d_ff, d_model)`,
`Dropout`. -/
structure FfnParams (R : Type) where
  lin1 : LinearParams R
  lin2 : LinearParams R

/-- Elementwise rectified linear unit. -/
def relu (x : Tensor3 R) : Tensor3 R :=
  ⟨x.bs, x.n, x.d, fun b i j => (x.val b i j).map (fun a => max a 0)⟩

/-- The feed-forward block in evaluation mode (both `nn.Dropout` layers act
as the identity). -/
def ffnForward (p : FfnParams R) (x : Tensor3 R) : Option (Tensor3 R) := do
  let a ← linear p.lin1 x
  linear p.lin2 (relu a)

/-- Parameters of one `nn.LayerNorm(d_model)`: the normalised size and the
elementwise affine weight and bias vectors. -/
structure LayerNormParams (R : Type) where
  dim : ℕ
  weight : ℕ → R
  bias : ℕ → R

/-- Model of `nn.LayerNorm(d_model)` applied to the last axis:
`(x - mean) / sqrt(var + eps) * weight + bias` per position, with the biased
variance and `eps = 1e-5`; raises when the last dimension of `x` differs
from the normalised size. -/
def layerNorm (rsqrt : R → R) (p : LayerNormParams R) (x : Tensor3 R) :
    Option (Tensor3 R) :=
  if x.d = p.dim then
    some ⟨x.bs, x.n, x.d, fun b i j => do
      let s ← oSum x.d (fun t => x.val b i t)
      let mu := s / (x.d : R)
      let v ← oSum x.d (fun t => (x.val b i t).map (fun a => (a - mu) * (a - mu)))
      let xv ← x.val b i j
      pure ((xv - mu) / rsqrt (v / (x.d : R) + 1 / 100000) * p.weight j + p.bias j)⟩
  else none

/-- Elementwise addition of two tensors under the torch broadcasting rule
(each axis must agree or have extent 1 on one side), as used by the residual
additions. -/
def addT (x y : Tensor3 R) : Option (Tensor3 R) :=
  if (x.bs = y.bs ∨ x.bs = 1 ∨ y.bs = 1) ∧ (x.n = y.n ∨ x.n = 1 ∨ y.n = 1) ∧
      (x.d = y.d ∨ x.d = 1 ∨ y.d = 1) then
    some ⟨max x.bs y.bs, max x.n y.n, max x.d y.d, fun b i j =>
      oAdd (x.val (if x.bs = 1 then 0 else b) (if x.n = 1 then 0 else i)
              (if x.d = 1 then 0 else j))
        (y.val (if y.bs = 1 then 0 else b) (if y.n = 1 then 0 else i)
          (if y.d = 1 then 0 else j))⟩
  else none

/-- Parameters of one `EncoderLayer`. -/
structure EncoderLayerParams (R : Type) where
  attn : MultiHeadedAttentionParams R
  ffn : FfnParams R
  attn_norm : LayerNormParams R
  ffn_norm : LayerNormParams R

/-- Full `EncoderLayer.forward` (model.py:64-70): the self-attention call
uses the source mask (`self.attn(q=x, k=x, v=x, mask=src_mask)`). -/
def encoderLayerForward (rexp rsqrt : R → R) (p : EncoderLayerParams R)
    (src : Tensor3 R) (src_mask : Option Mask2) : Option (Tensor3 R) := do
  let a ← multiHeadedAttentionForward rexp rsqrt p.attn src src src src_mask
  let x ← addT src a
  let x ← layerNorm rsqrt p.attn_norm x
  let f ← ffnForward p.ffn x
  let x ← addT x f
  layerNorm rsqrt p.ffn_norm x

/-- Parameters of one `DecoderLayer`. -/
structure DecoderLayerParams (R : Type) where
  masked_attn : MultiHeadedAttentionParams R
  attn : MultiHeadedAttentionParams R
  ffn : FfnParams R
  masked_attn_norm : LayerNormParams R
  attn_norm : LayerNormParams R
  ffn_norm : LayerNormParams R

/-- Full `DecoderLayer.forward` (model.py:153-161): `masked_attn` runs on the
target representation with `tgt_mask`, the cross attention `attn` takes its
keys and values from `enc` with `enc_mask`. -/
def decoderLayerForward (rexp rsqrt : R → R) (p : DecoderLayerParams R)
    (tgt enc : Tensor3 R) (tgt_mask enc_mask : Option Mask2) :
    Option (Tensor3 R) := do
  let a ← multiHeadedAttentionForward rexp rsqrt p.masked_attn tgt tgt tgt tgt_mask
  let x ← addT tgt a
  let x ← layerNorm rsqrt p.masked_attn_norm x
  let a2 ← multiHeadedAttentionForward rexp rsqrt p.attn x enc enc enc_mask
  let x ← addT x a2
  let x ← layerNorm rsqrt p.attn_norm x
  let f ← ffnForward p.ffn x
  let x ← addT x f
  layerNorm rsqrt p.ffn_norm x

/-- Full `Encoder.forward` (model.py:26-30): a left fold of the encoder
layers over the source representation, every layer receiving `src_mask`. -/
def encoderForward (rexp rsqrt : R → R) (layers : List (EncoderLayerParams R))
    (src : Tensor3 R) (src_mask : Option Mask2) : Option (Tensor3 R) :=
  layers.foldlM (fun out l => encoderLayerForward rexp rsqrt l out src_mask) src

/-- Full `Decoder.forward` (model.py:39-43): a left fold of the decoder
layers, every layer receiving `enc`, `tgt_mask` and `enc_mask` as bound by
the signature `forward(self, tgt, enc, tgt_mask, enc_mask)`. -/
def decoderForward (rexp rsqrt : R → R) (layers : List (DecoderLayerParams R))
    (tgt enc : Tensor3 R) (tgt_mask enc_mask : Option Mask2) :
    Option (Tensor3 R) :=
  layers.foldlM (fun out l => decoderLayerForward rexp rsqrt l out enc tgt_mask enc_mask) tgt

/-- Parameters of the whole `Transformer`. -/
structure TransformerParams (R : Type) where
  encoder : List (EncoderLayerParams R)
  decoder : List (DecoderLayerParams R)

/-- Full `Transformer.forward` (model.py:14-17).  The call at model.py:16 is
positional: `self.decoder(tgt, enc_out, src_mask, tgt_mask)`, so against the
signature `Decoder.forward(self, tgt, enc, tgt_mask, enc_mask)` it binds
`tgt_mask := src_mask` and `enc_mask := tgt_mask`. -/
def transformerForward (rexp rsqrt : R → R) (p : TransformerParams R)
    (src tgt : Tensor3 R) (src_mask tgt_mask : Option Mask2) :
    Option (Tensor3 R) := do
  let enc_out ← encoderForward rexp rsqrt p.encoder src src_mask
  decoderForward rexp rsqrt p.decoder tgt enc_out src_mask tgt_mask

/-- EncoderLayer.forward with the layer's parameter state threaded
explicitly: the body (model.py:64-70) only reads `self.attn`, `self.ffn`,
`self.attn_norm` and `self.ffn_norm` and assigns to none of them, so the
returned parameter state is the received one. -/
def encoderLayerForwardSt (rexp rsqrt : R → R) (p : EncoderLayerParams R)
    (src : Tensor3 R) (src_mask : Option Mask2) :
    Option (Tensor3 R) × EncoderLayerParams R :=
  (encoderLayerForward rexp rsqrt p src src_mask, p)

/-- DecoderLayer.forward with the layer's parameter state threaded
explicitly (model.py:153-161 reads its members and assigns to none). -/
def decoderLayerForwardSt (rexp rsqrt : R → R) (p : DecoderLayerParams R)
    (tgt enc : Tensor3 R) (tgt_mask enc_mask : Option Mask2) :
    Option (Tensor3 R) × DecoderLayerParams R :=
  (decoderLayerForward rexp rsqrt p tgt enc tgt_mask enc_mask, p)

/-- Encoder.forward with the stack's parameter state threaded explicitly:
each layer runs on the previous output and hands back its own (unchanged)
parameters; when a layer raises, the remaining layers do not run and keep
their parameters. -/
def encoderForwardSt (rexp rsqrt : R → R) :
    List (EncoderLayerParams R) → Tensor3 R → Option Mask2 →
    Option (Tensor3 R) × List (EncoderLayerParams R)
  | [], src, _ => (some src, [])
  | l :: rest, src, m =>
    let s := encoderLayerForwardSt rexp rsqrt l src m
    match s.1 with
    | none => (none, s.2 :: rest)
    | some x =>
      let t := encoderForwardSt rexp rsqrt rest x m
      (t.1, s.2 :: t.2)

/-- Decoder.forward with the stack's parameter state threaded explicitly. -/
def decoderForwardSt (rexp rsqrt : R → R) :
    List (DecoderLayerParams R) → Tensor3 R → Tensor3 R → Option Mask2 →
    Option Mask2 → Option (Tensor3 R) × List (DecoderLayerParams R)
  | [], tgt, _, _, _ => (some tgt, [])
  | l :: rest, tgt, enc, tm, em =>
    let s := decoderLayerForwardSt rexp rsqrt l tgt enc tm em
    match s.1 with
    | none => (none, s.2 :: rest)
    | some x =>
      let t := decoderForwardSt rexp rsqrt rest x enc tm em
      (t.1, s.2 :: t.2)

/-- Transformer.forward with the full parameter state threaded explicitly
(model.py:14-17 reads `self.encoder` and `self.decoder` and assigns to
neither). -/
def transformerForwardSt (rexp rsqrt : R → R) (p : TransformerParams R)
    (src tgt : Tensor3 R) (src_mask tgt_mask : Option Mask2) :
    Option (Tensor3 R) × TransformerParams R :=
  let e := encoderForwardSt rexp rsqrt p.encoder src src_mask
  match e.1 with
  | none => (none, ⟨e.2, p.decoder⟩)
  | some enc_out =>
    let d := decoderForwardSt rexp rsqrt p.decoder tgt enc_out src_mask tgt_mask
    (d.1, ⟨e.2, d.2⟩)

end Model

/-- A Python exception escaping a constructor. -/
inductive PyError where
  | zeroDivisionError : PyError
  | runtimeError : PyError
deriving DecidableEq

/-- The configuration state recorded by `MultiHeadedAttention.__init__`
(model.py:73-78): `d_model`, `num_heads`, and
`attn_output_size = d_model // num_heads`. -/
structure MhaConfig where
  d_model : ℤ
  num_heads : ℤ
  attn_output_size : ℤ
deriving DecidableEq

/-- Model of `MultiHeadedAttention.__init__` (model.py:72-85).  The body
performs no validation of its arguments: the only failures are the Python
`ZeroDivisionError` from `d_model // num_heads` when `num_heads == 0`, and
the torch `RuntimeError` from `nn.Linear` when asked for a negative
dimension (inside a `SelfAttention` when `num_heads > 0`, or from
`nn.Linear(d_model, d_model)` when no head is built).  `//` is Python floor
division, i.e. `Int.fdiv`. -/
def mhaInit (d_model num_heads : ℤ) : Except PyError MhaConfig :=
  if num_heads = 0 then Except.error PyError.zeroDivisionError
  else
    let a := Int.fdiv d_model num_heads
    if 0 < num_heads ∧ (d_model < 0 ∨ a < 0) then Except.error PyError.runtimeError
    else if d_model < 0 then Except.error PyError.runtimeError
    else Except.ok ⟨d_model, num_heads, a⟩

section ConcreteInstances

/-- A rank-3 tensor all of whose entries are ordinary (non-NaN) numbers. -/
def pureT {R : Type} (b n d : ℕ) (f : ℕ → ℕ → ℕ → R) : Tensor3 R :=
  ⟨b, n, d, fun x y z => some (f x y z)⟩

/-- A linear layer over the reals with every weight and bias zero. -/
def zeroLinearR (o i : ℕ) : LinearParams ℝ :=
  ⟨o, i, fun _ _ => 0, fun _ => 0⟩

/-- A self-attention head over the reals with all-zero projections. -/
def zeroHeadR (dm dO : ℕ) : SelfAttentionParams ℝ :=
  ⟨zeroLinearR dO dm, zeroLinearR dO dm, zeroLinearR dO dm⟩

/-- The all-zeros real tensor of shape `(b, n, d)`. -/
def zeroTensorR (b n d : ℕ) : Tensor3 ℝ :=
  pureT b n d (fun _ _ _ => 0)

/-- The all-ones mask of shape `(b, n)` (every position valid). -/
def onesMask (b n : ℕ) : Mask2 :=
  ⟨b, n, fun _ _ => 1⟩

/-- The batch-1, length-2 mask `[1, 0]`: key position 1 is padding. -/
def maskTailPad : Mask2 :=
  ⟨1, 2, fun _ j => if j = 0 then 1 else 0⟩

/-- The batch-1, length-2 mask `[0, 1]`: key position 0 is padding. -/
def maskHeadPad : Mask2 :=
  ⟨1, 2, fun _ j => if j = 0 then 0 else 1⟩

/-- A multi-headed attention block over the reals with `h` all-zero heads of
output size `dO` and an all-zero `d_model × d_model` output projection. -/
def zeroMhaR (dm h dO : ℕ) : MultiHeadedAttentionParams ℝ :=
  ⟨List.replicate h (zeroHeadR dm dO), zeroLinearR dm dm⟩

/-- LayerNorm parameters over the reals at their initial values
(weight one, bias zero). -/
def initLnR (d : ℕ) : LayerNormParams ℝ :=
  ⟨d, fun _ => 1, fun _ => 0⟩

/-- A feed-forward block over the reals with all-zero linear layers. -/
def zeroFfnR (dm dff : ℕ) : FfnParams ℝ :=
  ⟨zeroLinearR dff dm, zeroLinearR dm dff⟩

/-- An encoder layer over the reals with all-zero sublayer weights, head
size `dm / h` as computed by `MultiHeadedAttention.__init__`. -/
def zeroEncLayerR (dm h dff : ℕ) : EncoderLayerParams ℝ :=
  ⟨zeroMhaR dm h (dm / h), zeroFfnR dm dff, initLnR dm, initLnR dm⟩

/-- A decoder layer over the reals with all-zero sublayer weights. -/
def zeroDecLayerR (dm h dff : ℕ) : DecoderLayerParams ℝ :=
  ⟨zeroMhaR dm h (dm / h), zeroMhaR dm h (dm / h), zeroFfnR dm dff,
    initLnR dm, initLnR dm, initLnR dm⟩

/-- The transformer of the spec's shape example: `d_model = 16`,
`num_heads = 4`, one encoder layer and one decoder layer, `d_ff = 2048`. -/
def tpHeads4 : TransformerParams ℝ :=
  ⟨[zeroEncLayerR 16 4 2048], [zeroDecLayerR 16 4 2048]⟩

/-- A minimal transformer (no encoder layer, one decoder layer,
`d_model = num_heads = d_ff = 1`) used to exercise the decoder mask
routing. -/
def tpMinimal : TransformerParams ℝ :=
  ⟨[], [zeroDecLayerR 1 1 1]⟩

end ConcreteInstances

end TransformerModel

namespace TransformerModel

section Lemmas

variable {R : Type} [LinearOrderedField R] [DecidableEq R]

theorem oAdd_some (a b : R) : oAdd (some a) (some b) = some (a + b) := rfl

theorem oSum_eq_sum (f : ℕ → Option R) (g : ℕ → R) (n : ℕ)
    (h : ∀ i, i < n → f i = some (g i)) :
    oSum n f = some (∑ i ∈ Finset.range n, g i) := by
  induction n with
  | zero => simp [oSum]
  | succ n ih =>
    rw [oSum, ih (fun i hi => h i (Nat.lt_succ_of_lt hi)), h n (Nat.lt_succ_self n),
      oAdd_some, Finset.sum_range_succ]

theorem linear_pureT (p : LinearParams R) (b n d : ℕ) (f : ℕ → ℕ → ℕ → R)
    (h : d = p.inF) :
    linear p (pureT b n d f) = some (pureT b n p.outF (fun x y o =>
      (∑ t ∈ Finset.range d, f x y t * p.weight o t) + p.bias o)) := by
  unfold linear pureT
  rw [if_pos h]
  refine congrArg some (congrArg (Grid3.mk b n p.outF) ?_)
  funext x y o
  rw [oSum_eq_sum (fun j => oMul (some (f x y j)) (some (p.weight o j)))
    (fun t => f x y t * p.weight o t) d (fun t ht => rfl), oAdd_some]

theorem bmm_pureT (b n1 m n2 : ℕ) (f g : ℕ → ℕ → ℕ → R) :
    bmm (pureT b n1 m f) (pureT b m n2 g) =
      some (pureT b n1 n2 (fun x i j => ∑ t ∈ Finset.range m, f x i t * g x t j)) := by
  unfold bmm pureT
  rw [if_pos ⟨rfl, rfl⟩]
  refine congrArg some (congrArg (Grid3.mk b n1 n2) ?_)
  funext x i j
  rw [oSum_eq_sum (fun t => oMul (some (f x i t)) (some (g x t j)))
    (fun t => f x i t * g x t j) m (fun t ht => rfl)]

theorem transpose12_pureT (b n d : ℕ) (f : ℕ → ℕ → ℕ → R) :
    transpose12 (pureT b n d f) = pureT b d n (fun x i j => f x j i) := rfl

theorem scaleDiv_pureT (b n d : ℕ) (f : ℕ → ℕ → ℕ → R) (c : R) :
    scaleDiv (pureT b n d f) c = pureT b n d (fun x i j => f x i j / c) := rfl

theorem saScores_pureT (rsqrt : R → R) (p : SelfAttentionParams R) (bs n dm : ℕ)
    (qf kf : ℕ → ℕ → ℕ → R) (hq : p.query.inF = dm) (hk : p.key.inF = dm)
    (ho : p.query.outF = p.key.outF) :
    ∃ sf : ℕ → ℕ → ℕ → R,
      saScores rsqrt p (pureT bs n dm qf) (pureT bs n dm kf) = some (pureT bs n n sf) := by
  apply Exists.intro
  unfold saScores
  rw [linear_pureT p.query bs n dm qf hq.symm, linear_pureT p.key bs n dm kf hk.symm]
  simp only [Option.bind_eq_bind, Option.some_bind]
  rw [transpose12_pureT, ho, bmm_pureT]
  simp only [Option.some_bind]
  rw [scaleDiv_pureT]
  rfl

theorem saWeights_pureT_noMask (rexp rsqrt : R → R) (p : SelfAttentionParams R)
    (bs n dm : ℕ) (qf kf : ℕ → ℕ → ℕ → R) (hq : p.query.inF = dm)
    (hk : p.key.inF = dm) (ho : p.query.outF = p.key.outF) :
    ∃ sf : ℕ → ℕ → ℕ → R,
      saWeights rexp rsqrt p (pureT bs n dm qf) (pureT bs n dm kf) none =
        some (softmaxDim1 rexp ⟨bs, n, n, fun x i j => SVal.fin (sf x i j)⟩) := by
  obtain ⟨sf, hs⟩ := saScores_pureT rsqrt p bs n dm qf kf hq hk ho
  refine ⟨sf, ?_⟩
  unfold saWeights saMaskedScores
  rw [hs]
  rfl

theorem saWeights_pureT_mask (rexp rsqrt : R → R) (p : SelfAttentionParams R)
    (bs n dm : ℕ) (qf kf : ℕ → ℕ → ℕ → R) (m : Mask2) (hq : p.query.inF = dm)
    (hk : p.key.inF = dm) (ho : p.query.outF = p.key.outF)
    (hmb : m.bs = bs) (hmn : m.n = n) :
    ∃ sf : ℕ → ℕ → ℕ → R,
      saWeights rexp rsqrt p (pureT bs n dm qf) (pureT bs n dm kf) (some m) =
        some (softmaxDim1 rexp ⟨bs, n, n, fun x i j =>
          if m.val (if m.bs = 1 then 0 else x) (if m.n = 1 then 0 else j) = 0 then
            SVal.ninf
          else if n ≠ 1 ∧ i < j then SVal.ninf
          else SVal.fin (sf x i j)⟩) := by
  obtain ⟨sf, hs⟩ := saScores_pureT rsqrt p bs n dm qf kf hq hk ho
  refine ⟨sf, ?_⟩
  unfold saWeights saMaskedScores
  rw [hs]
  simp only [Option.bind_eq_bind, Option.some_bind]
  unfold applyMask
  simp only [pureT]
  rw [if_pos ⟨Or.inl hmb, Or.inl hmn⟩, if_pos (Or.inl trivial)]
  rfl

theorem encoderForwardSt_snd (rexp rsqrt : R → R) (ls : List (EncoderLayerParams R))
    (src : Tensor3 R) (m : Option Mask2) :
    (encoderForwardSt rexp rsqrt ls src m).2 = ls := by
  induction ls generalizing src with
  | nil => rfl
  | cons l rest ih =>
    simp only [encoderForwardSt, encoderLayerForwardSt]
    cases h : encoderLayerForward rexp rsqrt l src m with
    | none => simp [h]
    | some x => simp [h, ih]

theorem decoderForwardSt_snd (rexp rsqrt : R → R) (ls : List (DecoderLayerParams R))
    (tgt enc : Tensor3 R) (tm em : Option Mask2) :
    (decoderForwardSt rexp rsqrt ls tgt enc tm em).2 = ls := by
  induction ls generalizing tgt with
  | nil => rfl
  | cons l rest ih =>
    simp only [decoderForwardSt, decoderLayerForwardSt]
    cases h : decoderLayerForward rexp rsqrt l tgt enc tm em with
    | none => simp [h]
    | some x => simp [h, ih]

theorem encoderForwardSt_fst (rexp rsqrt : R → R) (ls : List (EncoderLayerParams R))
    (src : Tensor3 R) (m : Option Mask2) :
    (encoderForwardSt rexp rsqrt ls src m).1 = encoderForward rexp rsqrt ls src m := by
  induction ls generalizing src with
  | nil => rfl
  | cons l rest ih =>
    simp only [encoderForwardSt, encoderLayerForwardSt, encoderForward, List.foldlM_cons]
    cases h : encoderLayerForward rexp rsqrt l src m with
    | none => simp [h]
    | some x => simpa [h, encoderForward] using ih x

theorem decoderForwardSt_fst (rexp rsqrt : R → R) (ls : List (DecoderLayerParams R))
    (tgt enc : Tensor3 R) (tm em : Option Mask2) :
    (decoderForwardSt rexp rsqrt ls tgt enc tm em).1 =
      decoderForward rexp rsqrt ls tgt enc tm em := by
  induction ls generalizing tgt with
  | nil => rfl
  | cons l rest ih =>
    simp only [decoderForwardSt, decoderLayerForwardSt, decoderForward, List.foldlM_cons]
    cases h : decoderLayerForward rexp rsqrt l tgt enc tm em with
    | none => simp [h]
    | some x => simpa [h, decoderForward] using ih x

end Lemmas

end TransformerModel

namespace TransformerModel

/-- Claim C1.  The claim states that the softmax producing the attention
weights runs over the key axis, so that with an all-ones mask every query
position's weights sum to 1 across keys.  In the code the softmax runs over
`dim=1`, the query axis (model.py:125): with all-zero projections, batch 1,
two positions and an all-ones mask, the weights of query position 0 are
`1/2` at key 0 and `0` at key 1 (the causal fill), so their sum across the
key axis is `1/2`, not `1`. -/
theorem softmax_query_axis_row_sum_not_one :
    (saWeights Real.exp Real.sqrt (zeroHeadR 1 1) (zeroTensorR 1 2 1)
        (zeroTensorR 1 2 1) (some (onesMask 1 2))).bind
      (fun w => oAdd (w.val 0 0 0) (w.val 0 0 1)) = some (1 / 2) ∧
    (1 / 2 : ℝ) ≠ 1 := by
  constructor
  · norm_num [saWeights, saMaskedScores, saScores, linear, bmm, transpose12, scaleDiv,
      applyMask, softmaxDim1, softmaxCol, oSum, oAdd, oMul, svexp, toSVal,
      zeroHeadR, zeroLinearR, zeroTensorR, pureT, onesMask, Option.bind, Real.exp_zero]
  · norm_num

/-- Claim C2.  The claim states that `MultiHeadedAttention` concatenates the
head outputs along the feature axis, so that `Transformer.forward` returns a
tensor of shape `(batch, tgt_len, d_model)`; the spec's own example is
`batch=2, src_len=5, tgt_len=4, d_model=16, num_heads=4`.  In the code
`torch.cat(..., dim=1)` (model.py:88-92) concatenates along the sequence
axis, so the first multi-headed attention produces a `(2, 20, 4)` tensor and
the `nn.Linear(16, 16)` output projection raises a RuntimeError: the forward
pass fails (returns `none`) instead of returning a `(2, 4, 16)` tensor. -/
theorem transformer_heads4_forward_raises :
    transformerForward Real.exp Real.sqrt tpHeads4 (zeroTensorR 2 5 16)
      (zeroTensorR 2 4 16) (some (onesMask 2 5)) (some (onesMask 2 4)) = none := rfl

/-- Claim C3.  The claim states that the decoder's self-attention sublayer
receives the target mask and its cross-attention sublayer the source mask.
`Transformer.forward` (model.py:16) calls `self.decoder(tgt, enc_out,
src_mask, tgt_mask)` against the signature `Decoder.forward(self, tgt, enc,
tgt_mask, enc_mask)`, so the two masks are swapped.  Witnessed behaviourally
with `src_len=3`, `tgt_len=2` and correctly shaped all-ones masks: the whole
forward raises (first conjunct) because the decoder self-attention is run
with the length-3 source mask over the length-2 target (second conjunct),
while the same self-attention call with the length-2 target mask the claim
prescribes succeeds (third conjunct). -/
theorem transformer_decoder_mask_swap :
    transformerForward Real.exp Real.sqrt tpMinimal (zeroTensorR 1 3 1)
      (zeroTensorR 1 2 1) (some (onesMask 1 3)) (some (onesMask 1 2)) = none ∧
    multiHeadedAttentionForward Real.exp Real.sqrt (zeroDecLayerR 1 1 1).masked_attn
      (zeroTensorR 1 2 1) (zeroTensorR 1 2 1) (zeroTensorR 1 2 1)
      (some (onesMask 1 3)) = none ∧
    (multiHeadedAttentionForward Real.exp Real.sqrt (zeroDecLayerR 1 1 1).masked_attn
      (zeroTensorR 1 2 1) (zeroTensorR 1 2 1) (zeroTensorR 1 2 1)
      (some (onesMask 1 2))).isSome = true := ⟨rfl, rfl, rfl⟩

/-- Claim C4.  The claim states that encoder self-attention applies no causal
restriction: with an all-ones source mask the weights at key positions later
than the query may be nonzero.  In the code (model.py:116-123) the
`subsequent_mask` is applied whenever any mask is supplied, in the encoder
too (model.py:66 passes `src_mask`): for every projection parameters, every
NaN-free inputs and every all-ones mask, the weight at key position `j`
later than query position `i` is forced to be exactly `0`. -/
theorem selfAttention_onesMask_causal_zero (p : SelfAttentionParams ℝ)
    (bs n dm : ℕ) (qf kf : ℕ → ℕ → ℕ → ℝ) (m : Mask2) (hq : p.query.inF = dm)
    (hk : p.key.inF = dm) (ho : p.query.outF = p.key.outF)
    (hmb : m.bs = bs) (hmn : m.n = n) (hones : ∀ x y, m.val x y = 1)
    (b i j : ℕ) (hij : i < j) (hjn : j < n) :
    (saWeights Real.exp Real.sqrt p (pureT bs n dm qf) (pureT bs n dm kf)
        (some m)).bind (fun w => w.val b i j) = some 0 := by
  obtain ⟨sf, hw⟩ :=
    saWeights_pureT_mask Real.exp Real.sqrt p bs n dm qf kf m hq hk ho hmb hmn
  rw [hw, Option.some_bind]
  have hn1 : n ≠ 1 := by omega
  show softmaxCol Real.exp n (fun r =>
    if m.val (if m.bs = 1 then 0 else b) (if m.n = 1 then 0 else j) = 0 then SVal.ninf
    else if n ≠ 1 ∧ r < j then SVal.ninf
    else SVal.fin (sf b r j)) i = some 0
  have hcol : ∀ r, r < n → svexp Real.exp
      (if m.val (if m.bs = 1 then 0 else b) (if m.n = 1 then 0 else j) = 0 then SVal.ninf
        else if n ≠ 1 ∧ r < j then SVal.ninf
        else SVal.fin (sf b r j)) =
      some (if r < j then (0:ℝ) else Real.exp (sf b r j)) := by
    intro r hr
    rw [hones, if_neg one_ne_zero]
    by_cases hrj : r < j
    · rw [if_pos ⟨hn1, hrj⟩, if_pos hrj]
      rfl
    · rw [if_neg (fun hh => hrj hh.2), if_neg hrj]
      rfl
  have hd := oSum_eq_sum _ _ n hcol
  have hpos : 0 < ∑ r ∈ Finset.range n,
      (if r < j then (0:ℝ) else Real.exp (sf b r j)) := by
    refine Finset.sum_pos' (fun r _ => ?_) ⟨j, Finset.mem_range.mpr hjn, ?_⟩
    · by_cases hrj : r < j
      · simp [hrj]
      · simp [hrj, le_of_lt (Real.exp_pos _)]
    · simp [lt_irrefl, Real.exp_pos]
  unfold softmaxCol
  rw [hd, Option.some_bind, if_neg (ne_of_gt hpos), hones]
  simp [svexp, hn1, hij]

/-- Witness for claim C4's theorem at concrete inputs: all-zero projections,
batch 1, two positions, all-ones mask, query 0 and key 1. -/
theorem selfAttention_onesMask_causal_zero_witness :
    (saWeights Real.exp Real.sqrt (zeroHeadR 1 1) (pureT 1 2 1 (fun _ _ _ => 0))
        (pureT 1 2 1 (fun _ _ _ => 0)) (some (onesMask 1 2))).bind
      (fun w => w.val 0 0 1) = some 0 :=
  selfAttention_onesMask_causal_zero (zeroHeadR 1 1) 1 2 1 (fun _ _ _ => 0)
    (fun _ _ _ => 0) (onesMask 1 2) rfl rfl rfl rfl rfl (fun _ _ => rfl)
    0 0 1 (by decide) (by decide)

/-- Claim C5.  The claim states that in decoder self-attention the weight
from query `i` to key `j > i` is exactly 0 regardless of the supplied mask's
content.  With the mask `[1, 0]` the code instead yields NaN at that
position: because the softmax runs over the query axis (model.py:125), the
whole column of the padded key 1 is filled with negative infinity and its
softmax denominator is 0, so the weight from query 0 to key 1 is NaN
(modelled as `none`), not 0. -/
theorem decoder_selfAttention_masked_key_weight_nan :
    (saWeights Real.exp Real.sqrt (zeroHeadR 1 1) (zeroTensorR 1 2 1)
        (zeroTensorR 1 2 1) (some maskTailPad)).bind (fun w => w.val 0 0 1) = none := by
  norm_num [saWeights, saMaskedScores, saScores, linear, bmm, transpose12, scaleDiv,
    applyMask, softmaxDim1, softmaxCol, oSum, oAdd, oMul, svexp, toSVal,
    zeroHeadR, zeroLinearR, zeroTensorR, pureT, maskTailPad, Option.bind]

/-- Claim C6.  The claim states that a key position `j` marked invalid by the
mask receives attention weight exactly 0 from every query position.  With
the mask `[0, 1]` (key 0 invalid) the code instead yields NaN at key 0 for
both query positions: the query-axis softmax normalises the all-negative-
infinity column of the masked key against itself, giving a 0/0. -/
theorem padding_masked_key_weight_nan :
    (saWeights Real.exp Real.sqrt (zeroHeadR 1 1) (zeroTensorR 1 2 1)
        (zeroTensorR 1 2 1) (some maskHeadPad)).bind (fun w => w.val 0 0 0) = none ∧
    (saWeights Real.exp Real.sqrt (zeroHeadR 1 1) (zeroTensorR 1 2 1)
        (zeroTensorR 1 2 1) (some maskHeadPad)).bind (fun w => w.val 0 1 0) = none := by
  constructor <;>
  norm_num [saWeights, saMaskedScores, saScores, linear, bmm, transpose12, scaleDiv,
    applyMask, softmaxDim1, softmaxCol, oSum, oAdd, oMul, svexp, toSVal,
    zeroHeadR, zeroLinearR, zeroTensorR, pureT, maskHeadPad, Option.bind]

end TransformerModel

namespace TransformerModel

/-- Counterexample to claim C7 as stated: constructing with `d_model = 10`
and `num_heads = 3` (not divisible) does not fail with a ConfigurationError
— it does not fail at all; and `num_heads * attn_output_size = 9 ≠ 10`. -/
theorem mhaInit_no_validation_counterexample :
    mhaInit 10 3 = Except.ok ⟨10, 3, 3⟩ ∧ (3 : ℤ) * 3 ≠ 10 := ⟨rfl, by decide⟩

/-- Claim C7, amended.  `MultiHeadedAttention.__init__` performs no
validation and the code base defines no ConfigurationError: a non-divisible
pair constructs successfully with `attn_output_size = d_model // num_heads`;
`num_heads = 0` fails only with the ZeroDivisionError of the floor division.
For positive `num_heads` dividing a nonnegative `d_model`, construction
succeeds and `num_heads * attn_output_size = d_model` holds exactly. -/
theorem mhaInit_divisible_ok (d h : ℤ) (h0 : 0 < h) (hdvd : h ∣ d) (hd : 0 ≤ d) :
    mhaInit d h = Except.ok ⟨d, h, d / h⟩ ∧ h * (d / h) = d := by
  have hne : h ≠ 0 := ne_of_gt h0
  have hfd : Int.fdiv d h = d / h := Int.fdiv_eq_ediv d (le_of_lt h0)
  have hdiv : (0:ℤ) ≤ d / h := Int.ediv_nonneg hd (le_of_lt h0)
  refine ⟨?_, Int.mul_ediv_cancel' hdvd⟩
  simp only [mhaInit, hfd]
  rw [if_neg hne,
    if_neg (show ¬(0 < h ∧ (d < 0 ∨ d / h < 0)) from fun hh =>
      hh.2.elim (fun hc => absurd hd (not_le.mpr hc))
        (fun hc => absurd hdiv (not_le.mpr hc))),
    if_neg (not_lt.mpr hd)]

/-- Witness for claim C7's amended theorem at `d_model = 16`,
`num_heads = 4`. -/
theorem mhaInit_divisible_ok_witness :
    (0:ℤ) < 4 ∧ (4:ℤ) ∣ 16 ∧ (0:ℤ) ≤ 16 ∧
      (mhaInit 16 4 = Except.ok ⟨16, 4, 16 / 4⟩ ∧ (4:ℤ) * (16 / 4) = 16) :=
  ⟨by decide, ⟨4, by decide⟩, by decide,
    mhaInit_divisible_ok 16 4 (by decide) ⟨4, by decide⟩ (by decide)⟩

/-- Claim C8.  With dropout disabled (the embedding is `Transformer.forward`
in evaluation mode), two forward calls with identical parameters and
identical inputs produce identical outputs: the embedded forward is a pure
function of its parameters and inputs, with no other state. -/
theorem transformerForward_deterministic (p : TransformerParams ℝ)
    (src₁ tgt₁ src₂ tgt₂ : Tensor3 ℝ) (sm₁ tm₁ sm₂ tm₂ : Option Mask2)
    (hs : src₁ = src₂) (ht : tgt₁ = tgt₂) (hsm : sm₁ = sm₂) (htm : tm₁ = tm₂) :
    transformerForward Real.exp Real.sqrt p src₁ tgt₁ sm₁ tm₁ =
      transformerForward Real.exp Real.sqrt p src₂ tgt₂ sm₂ tm₂ := by
  rw [hs, ht, hsm, htm]

/-- Witness for claim C8's theorem at concrete identical inputs. -/
theorem transformerForward_deterministic_witness :
    transformerForward Real.exp Real.sqrt tpMinimal (zeroTensorR 1 1 1)
        (zeroTensorR 1 1 1) none none =
      transformerForward Real.exp Real.sqrt tpMinimal (zeroTensorR 1 1 1)
        (zeroTensorR 1 1 1) none none :=
  transformerForward_deterministic tpMinimal (zeroTensorR 1 1 1) (zeroTensorR 1 1 1)
    (zeroTensorR 1 1 1) (zeroTensorR 1 1 1) none none none none rfl rfl rfl rfl

/-- Claim C9.  A forward pass leaves every model parameter unchanged: in the
parameter-state-threading embedding of `Transformer.forward`, the parameter
state after the call equals the parameter state before it, for every input
(no forward body in model.py assigns to any parameter). -/
theorem transformerForwardSt_preserves_parameters (p : TransformerParams ℝ)
    (src tgt : Tensor3 ℝ) (sm tm : Option Mask2) :
    (transformerForwardSt Real.exp Real.sqrt p src tgt sm tm).2 = p := by
  obtain ⟨pe, pd⟩ := p
  simp only [transformerForwardSt]
  cases h : (encoderForwardSt Real.exp Real.sqrt pe src sm).1 with
  | none => simp [h, encoderForwardSt_snd]
  | some x => simp [h, encoderForwardSt_snd, decoderForwardSt_snd]

/-- Claim C10.  When `SelfAttention.forward` is called with `mask=None`
(model.py:104, 116), no masking of any kind is applied: for NaN-free inputs
every attention weight — in particular at key positions later than the query
— is strictly positive, so neither padding nor causal constraints restrict
the weights, and the causal restriction is active only when a padding mask
is supplied. -/
theorem selfAttention_noMask_weights_positive (p : SelfAttentionParams ℝ)
    (bs n dm : ℕ) (qf kf : ℕ → ℕ → ℕ → ℝ) (hq : p.query.inF = dm)
    (hk : p.key.inF = dm) (ho : p.query.outF = p.key.outF) (hn : n ≠ 0)
    (b i j : ℕ) :
    ∃ c : ℝ, 0 < c ∧
      (saWeights Real.exp Real.sqrt p (pureT bs n dm qf) (pureT bs n dm kf) none).bind
        (fun w => w.val b i j) = some c := by
  obtain ⟨sf, hw⟩ := saWeights_pureT_noMask Real.exp Real.sqrt p bs n dm qf kf hq hk ho
  rw [hw, Option.some_bind]
  have hd : oSum n (fun r => svexp Real.exp (SVal.fin (sf b r j))) =
      some (∑ r ∈ Finset.range n, Real.exp (sf b r j)) :=
    oSum_eq_sum (fun r => svexp Real.exp (SVal.fin (sf b r j)))
      (fun r => Real.exp (sf b r j)) n (fun r hr => rfl)
  have hpos : 0 < ∑ r ∈ Finset.range n, Real.exp (sf b r j) :=
    Finset.sum_pos (fun r _ => Real.exp_pos _) (Finset.nonempty_range_iff.mpr hn)
  refine ⟨Real.exp (sf b i j) / (∑ r ∈ Finset.range n, Real.exp (sf b r j)),
    div_pos (Real.exp_pos _) hpos, ?_⟩
  show softmaxCol Real.exp n (fun r => SVal.fin (sf b r j)) i = _
  unfold softmaxCol
  rw [hd, Option.some_bind, if_neg (ne_of_gt hpos)]
  rfl

/-- Witness for claim C10's theorem: all-zero projections, two positions, no
mask; the weight from query 0 to the later key 1 is strictly positive. -/
theorem selfAttention_noMask_weights_positive_witness :
    0 < (((saWeights Real.exp Real.sqrt (zeroHeadR 1 1) (pureT 1 2 1 (fun _ _ _ => 0))
        (pureT 1 2 1 (fun _ _ _ => 0)) none).bind (fun w => w.val 0 0 1)).getD 0) := by
  obtain ⟨c, hc, he⟩ := selfAttention_noMask_weights_positive (zeroHeadR 1 1) 1 2 1
    (fun _ _ _ => 0) (fun _ _ _ => 0) rfl rfl rfl (by decide) 0 0 1
  rw [he]
  simpa using hc

end TransformerModel
